import Mathlib

/-!
Verification of the captcha-api challenge/verification core.

This file gives a shallow embedding, in Lean, of the parts of the
Find-Your-Humanity/captcha-api repository that the checked claims are
about, and proves (or refutes) each claim against that embedding.

Embedded source files:
  - src/api/routers/next_captcha.py  (verify_captcha_token, next_captcha handler)
  - src/infrastructure/redis_client.py  (checkbox sessions, attempt counter)
  - src/services/imagegrid_service.py
  - src/services/abstract_service.py
  - src/services/handwriting_service.py
  - src/utils/handwriting_mapping.py
  - src/utils/ip_rate_limiter.py
  - src/utils/signing.py  (together with hashlib sha256 / hmac semantics)

Conventions: Python dict response bodies are embedded as association
lists of key/value pairs (insertion order preserved, as in Python);
the Redis store is embedded as a function from key strings to optional
typed documents; time is an explicit parameter; machine-level byte and
word arithmetic is on Nat with explicit reduction mod 2^32.
-/

/-- JSON-like values, for embedding the Python dict/list response bodies. -/
inductive JVal where
  | jnull : JVal
  | jbool : Bool → JVal
  | jint : Int → JVal
  | jstr : String → JVal
  | jarr : List JVal → JVal
  | jobj : List (String × JVal) → JVal

/-- A response body: a Python dict, with insertion order preserved. -/
abbrev JBody := List (String × JVal)

/-- The keys of a response body. -/
def jkeys (p : JBody) : List String := p.map Prod.fst

/-- First value stored under a key, like a Python dict read (keys are unique). -/
def jlookup (p : JBody) (k : String) : Option JVal := p.lookup k

/-- The Redis store as seen through redis_get_json/redis_set_json/redis_del:
a map from key strings to optional JSON documents of a fixed shape.
TTLs are not modelled; every claim below is about behaviour within the
lifetime of the stored documents. -/
abbrev KV (α : Type) := String → Option α

/-- redis_set_json: store a document under a key. -/
def KV.set (s : KV α) (k : String) (v : α) : KV α :=
  fun k2 => if k2 = k then some v else s k2

/-- redis_del: remove the document under a key. -/
def KV.del (s : KV α) (k : String) : KV α :=
  fun k2 => if k2 = k then none else s k2

/-- The empty store. -/
def KV.empty : KV α := fun _ => none

/-- Python str.strip with a colon argument, as used by rkey. -/
def stripColons (s : String) : String :=
  String.mk (((s.toList.dropWhile (· == ':')).reverse.dropWhile (· == ':')).reverse)

/-- Python str.strip with no argument: remove leading and trailing
whitespace. -/
def pyStrip (s : String) : String :=
  String.mk (((s.toList.dropWhile Char.isWhitespace).reverse.dropWhile Char.isWhitespace).reverse)

/-- rkey from src/infrastructure/redis_client.py: REDIS_PREFIX (default value
rcaptcha:) followed by the colon-join of the nonempty parts, each stripped of
leading/trailing colons. -/
def rkey (parts : List String) : String :=
  "rcaptcha:" ++ String.intercalate ":" ((parts.filter (fun p => p ≠ "")).map stripColons)

/-- CAPTCHA_TTL from src/config/settings.py (default value 60 seconds). -/
def CAPTCHA_TTL : Nat := 60

/-! ## Image-grid challenges (src/services/imagegrid_service.py)

The Redis-backed path is embedded; per the data-ownership rule the KV store
owns challenge state (the in-memory fallback mirrors the same logic). -/

/-- The JSON document stored under rkey imagegrid:cid. -/
structure ImageGridDoc where
  cid : String
  image_url : String
  attempts : Nat
  target_label : String
  correct_cells : List Int

/-- Insert into a sorted list, for embedding the Python sorted builtin. -/
def insertSorted (x : Int) : List Int → List Int
  | [] => [x]
  | y :: ys => if x ≤ y then x :: y :: ys else y :: insertSorted x ys

/-- Python sorted() on a list of ints. -/
def pySorted (l : List Int) : List Int := l.foldr insertSorted []

/-- Python sorted(set(l)): the distinct elements in increasing order. -/
def sortedDedupInt (l : List Int) : List Int := pySorted l.dedup

/-- Question text table from create_imagegrid_challenge. -/
def label_message_map : List (String × String) :=
  [("person", "사람이 포함된 이미지를 고르시오"),
   ("car", "차가 포함된 이미지를 고르시오"),
   ("dog", "개가 포함된 이미지를 고르시오"),
   ("cat", "고양이가 포함된 이미지를 고르시오"),
   ("bus", "버스가 포함된 이미지를 고르시오"),
   ("bicycle", "자전거가 포함된 이미지를 고르시오")]

/-- create_imagegrid_challenge: the sampled labelled-manifest record
(key, url, target_label, correct_cells) and the generated challenge id are
inputs; the function stores the challenge document and builds the issuance
response body. -/
def create_imagegrid_challenge (store : KV ImageGridDoc) (challenge_id : String)
    (url : String) (target_label : String) (correct_cells : List Int) :
    JBody × KV ImageGridDoc :=
  let doc : ImageGridDoc :=
    { cid := challenge_id, image_url := url, attempts := 0,
      target_label := target_label, correct_cells := correct_cells }
  let store1 := KV.set store (rkey ["imagegrid", challenge_id]) doc
  let question := (label_message_map.lookup target_label.toLower).getD
    (target_label ++ " 이미지를 모두 고르시오")
  ([("challenge_id", JVal.jstr challenge_id),
    ("url", JVal.jstr url),
    ("ttl", JVal.jint CAPTCHA_TTL),
    ("grid_size", JVal.jint 3),
    ("target_label", JVal.jstr target_label),
    ("question", JVal.jstr question)], store1)

/-- verify_imagegrid (Redis path): adjudicate by comparing the sorted
deduplicated selections with the sorted deduplicated stored correct cells,
then increment the attempt counter (read-modify-write on the JSON document)
and delete the challenge when the attempt passed or the post-increment
counter is at least 1. -/
def verify_imagegrid (store : KV ImageGridDoc) (challenge_id : String)
    (selections : List Int) : JBody × KV ImageGridDoc :=
  let key := rkey ["imagegrid", challenge_id]
  match store key with
  | none => ([("success", JVal.jbool false), ("message", JVal.jstr "Challenge not found")], store)
  | some doc =>
    let sel := sortedDedupInt selections
    let correct := sortedDedupInt doc.correct_cells
    let ok : Bool := sel = correct
    let attempts := doc.attempts + 1
    let store1 := KV.set store key { doc with attempts := attempts }
    let store2 := if ok ∨ attempts ≥ 1 then KV.del store1 key else store1
    let payload : JBody :=
      [("success", JVal.jbool ok),
       ("attempts", JVal.jint attempts),
       ("target_label", JVal.jstr doc.target_label),
       ("correct_cells", JVal.jarr (correct.map JVal.jint)),
       ("user_selections", JVal.jarr (sel.map JVal.jint)),
       ("boxes", JVal.jarr [])]
    let payload := if ¬ ok ∧ attempts ≥ 1 then payload ++ [("downshift", JVal.jbool true)] else payload
    (payload, store2)

/-! ## Abstract challenges (src/services/abstract_service.py) -/

/-- The JSON document stored under rkey abstract:cid. -/
structure AbstractDoc where
  cid : String
  target_class : String
  keywords : List String
  image_urls : List String
  is_positive : List Bool
  attempts : Nat

/-- Python set equality of two integer lists. -/
def listSetEq (a b : List Int) : Bool :=
  a.all (fun x => b.contains x) && b.all (fun x => a.contains x)

/-- create_abstract_captcha: stores the challenge document and builds the
issuance response; the generated challenge id is an input. -/
def create_abstract_captcha (store : KV AbstractDoc) (challenge_id : String)
    (image_urls : List String) (target_class : String) (is_positive : List Bool)
    (keywords : List String) : JBody × KV AbstractDoc :=
  let doc : AbstractDoc :=
    { cid := challenge_id, target_class := target_class, keywords := keywords,
      image_urls := image_urls, is_positive := is_positive, attempts := 0 }
  let store1 := KV.set store (rkey ["abstract", challenge_id]) doc
  let question := match keywords with
    | k :: _ => k ++ " 이미지를 골라주세요"
    | [] => "Select"
  ([("challenge_id", JVal.jstr challenge_id),
    ("question", JVal.jstr question),
    ("ttl", JVal.jint CAPTCHA_TTL),
    ("images", JVal.jarr (image_urls.enum.map
      (fun iu => JVal.jobj [("id", JVal.jint iu.1), ("url", JVal.jstr iu.2)])))], store1)

/-- The positive indices of an abstract challenge, as in
the set of i with is_positive i truthy. -/
def positiveIndices (is_positive : List Bool) : List Int :=
  ((List.range is_positive.length).filter (fun i => is_positive.getD i false)).map Int.ofNat

/-- verify_abstract (Redis path): pass when the selection set equals the
positive-index set, then increment attempts and delete the challenge when
the attempt passed or the post-increment counter is at least 1. -/
def verify_abstract (store : KV AbstractDoc) (challenge_id : String)
    (selections : List Int) : JBody × KV AbstractDoc :=
  let key := rkey ["abstract", challenge_id]
  match store key with
  | none => ([("success", JVal.jbool false), ("message", JVal.jstr "Challenge not found")], store)
  | some doc =>
    let is_pass := listSetEq (positiveIndices doc.is_positive) selections
    let attempts := doc.attempts + 1
    let store1 := KV.set store key { doc with attempts := attempts }
    let store2 := if is_pass ∨ attempts ≥ 1 then KV.del store1 key else store1
    ([("success", JVal.jbool is_pass),
      ("attempts", JVal.jint attempts),
      ("target_class", JVal.jstr doc.target_class),
      ("keywords", JVal.jarr (doc.keywords.map JVal.jstr)),
      ("expired", JVal.jbool false)], store2)

/-! ## Handwriting challenges (src/services/handwriting_service.py,
src/utils/handwriting_mapping.py) -/

/-- TARGET_TO_ANSWER_MAPPING from src/utils/handwriting_mapping.py. -/
def TARGET_TO_ANSWER_MAPPING : List (String × List String) :=
  [("금붕어", ["금붕어", "물고기"]),
   ("웜뱃", ["웜뱃"]),
   ("공작", ["새", "공작"]),
   ("긴꼬리흰앵무", ["새", "앵무새"]),
   ("금화조", ["새"]),
   ("파랑새류", ["새"]),
   ("코뿔새", ["새"]),
   ("까치", ["까치", "새"]),
   ("검은고니", ["새"]),
   ("무지개앵무", ["새", "앵무새"]),
   ("개", ["개", "강아지"]),
   ("고양이", ["고양이"])]

/-- get_answer_classes: acceptable answers for a target class, falling back
to the target class itself when no mapping entry exists, and to the empty
list for a blank target. -/
def get_answer_classes (target_class : String) : List String :=
  let target := pyStrip target_class
  if target = "" then []
  else (TARGET_TO_ANSWER_MAPPING.lookup target).getD [target]

/-- The JSON document stored under rkey handwriting:cid. -/
structure HandwritingDoc where
  cid : String
  samples : List String
  target_class : String
  answer_classes : List String
  attempts : Nat

/-- create_handwriting_challenge: stores the challenge document (with the
configured answer classes for the target class) and builds the issuance
response; the generated challenge id is an input. -/
def create_handwriting_challenge (store : KV HandwritingDoc) (challenge_id : String)
    (samples : List String) (target_class : String) : JBody × KV HandwritingDoc :=
  let answer_classes := get_answer_classes target_class
  let doc : HandwritingDoc :=
    { cid := challenge_id, samples := samples, target_class := target_class,
      answer_classes := answer_classes, attempts := 0 }
  let store1 := KV.set store (rkey ["handwriting", challenge_id]) doc
  ([("challenge_id", JVal.jstr challenge_id),
    ("samples", JVal.jarr (samples.map JVal.jstr)),
    ("ttl", JVal.jint CAPTCHA_TTL),
    ("message", JVal.jstr "Handwriting challenge created successfully")], store1)

/-- verify_handwriting: succeed exactly when the normalized OCR text is one
of the stored answer classes (recomputed from the target class when the
stored list is missing or empty), then increment attempts and delete the
challenge when matched or the post-increment counter is at least 1. -/
def verify_handwriting (store : KV HandwritingDoc) (challenge_id : String)
    (text_norm : String) : JBody × KV HandwritingDoc :=
  let key := rkey ["handwriting", challenge_id]
  let redis_doc := if challenge_id = "" then none else store key
  match redis_doc with
  | none => ([("success", JVal.jbool false), ("message", JVal.jstr "Challenge not found")], store)
  | some doc =>
    let allowed := if doc.answer_classes = [] then get_answer_classes doc.target_class
      else doc.answer_classes
    let is_match := allowed.contains text_norm
    let attempts := doc.attempts + 1
    let store1 := KV.set store key { doc with attempts := attempts }
    let store2 := if is_match ∨ attempts ≥ 1 then KV.del store1 key else store1
    ([("success", JVal.jbool is_match)], store2)

/-! ## Captcha tokens (src/api/routers/next_captcha.py, verify_captcha_token)

The captcha_tokens table is embedded as a list of rows; NOW() is an explicit
parameter. The SELECT filters on token_id, api_key_id, expires_at > NOW() and
is_used = 0 and fetches the first matching row. The connection comes from
database.get_db_connection, which is created with
cursorclass=pymysql.cursors.DictCursor and autocommit=False, so fetchone
returns the row as a dict; the positional reads result[0] and result[1]
on lines 80-84 therefore raise KeyError, which the function's own
except Exception clause turns into the (False, None) return. The
UPDATE ... SET is_used = 1 is never reached (and with autocommit off and the
connection closed without commit it would not persist even if it ran), so
the function returns (False, None) on every input and never modifies the
table. -/

/-- A row of the captcha_tokens table. -/
structure TokenRow where
  id : Nat
  token_id : String
  api_key_id : Int
  user_id : Int
  captcha_type : String
  expires_at : Int
  is_used : Nat
  used_at : Option Int

/-- The WHERE clause of the SELECT in verify_captcha_token. -/
def tokenMatches (token : String) (apiKeyId : Int) (now : Int) (r : TokenRow) : Bool :=
  r.token_id == token && r.api_key_id == apiKeyId && decide (now < r.expires_at) && r.is_used == 0

/-- verify_captcha_token: the SELECT runs (and may match a row), but reading
the DictCursor row positionally raises KeyError on both the hit and the
intended success return, so the except clause yields (False, None) in every
case and the table is left unchanged: the is_used = 1 UPDATE never executes. -/
def verify_captcha_token (db : List TokenRow) (token : String) (apiKeyId : Int)
    (now : Int) : (Bool × Option String) × List TokenRow :=
  match db.find? (tokenMatches token apiKeyId now) with
  | some _ => ((false, none), db)
  | none => ((false, none), db)

/-! ## Checkbox sessions (src/infrastructure/redis_client.py) and the
/api/next-captcha decision core (src/api/routers/next_captcha.py)

The session document is embedded with the fields the code reads or writes;
absent dict keys read through .get with a default are embedded as fields
initialised to that default. The created_at/last_attempt_at timestamps are
not referenced by any claim and are omitted. -/

/-- The checkbox session document stored under rkey checkbox_session:sid. -/
structure CheckboxSession where
  session_id : String
  attempts : Nat
  low_score_attempts : Nat
  bot_attempts : Nat
  is_blocked : Bool
  status : String

/-- The session document as read by increment_checkbox_attempts when the key
is absent (each field through .get with its default). -/
def emptyCheckboxSession (sid : String) : CheckboxSession :=
  { session_id := sid, attempts := 0, low_score_attempts := 0,
    bot_attempts := 0, is_blocked := false, status := "" }

/-- create_checkbox_session: store a fresh session document. -/
def create_checkbox_session (store : KV CheckboxSession) (sid : String) :
    KV CheckboxSession :=
  KV.set store (rkey ["checkbox_session", sid]) (emptyCheckboxSession sid)

/-- get_checkbox_session: None for an empty session id, else the stored doc. -/
def get_checkbox_session (store : KV CheckboxSession) (sid : String) :
    Option CheckboxSession :=
  if sid = "" then none else store (rkey ["checkbox_session", sid])

/-- increment_checkbox_attempts: bump the attempt counter; on a bot-suspected
attempt bump bot_attempts and hard-block the session at 3; return the
response dict, which carries only status, is_disabled and is_blocked. -/
def increment_checkbox_attempts (store : KV CheckboxSession) (sid : String)
    (is_bot_suspected : Bool) : JBody × KV CheckboxSession :=
  let key := rkey ["checkbox_session", sid]
  let s0 := (store key).getD (emptyCheckboxSession sid)
  let s1 := { s0 with attempts := s0.attempts + 1 }
  let s2 :=
    if is_bot_suspected then
      let b := s1.bot_attempts + 1
      if b ≥ 3 then { s1 with bot_attempts := b, is_blocked := true, status := "blocked" }
      else { s1 with bot_attempts := b, status := "bot_suspected" }
    else { s1 with status := "success" }
  let store1 := KV.set store key s2
  ([("status", JVal.jstr s2.status),
    ("is_disabled", JVal.jbool s2.is_blocked),
    ("is_blocked", JVal.jbool s2.is_blocked)], store1)

/-- is_checkbox_session_blocked: the stored is_blocked flag, default false. -/
def is_checkbox_session_blocked (store : KV CheckboxSession) (sid : String) : Bool :=
  ((get_checkbox_session store sid).map (fun s => s.is_blocked)).getD false

/-- The blocked response issued when an already-blocked session calls
/api/next-captcha again (next_captcha.py lines 342-350). -/
def blockedSessionBody (sid : String) : JBody :=
  [("message", JVal.jstr "Session blocked due to suspicious activity"),
   ("status", JVal.jstr "blocked"),
   ("session_id", JVal.jstr sid),
   ("is_blocked", JVal.jbool true),
   ("captcha_type", JVal.jstr ""),
   ("next_captcha", JVal.jstr ""),
   ("captcha_token", JVal.jnull)]

/-- What a /api/next-captcha request produces once it reaches the session
phase: either an HTTP response body, or an uncaught Python exception that
the framework turns into an HTTP 500. -/
inductive HandlerOutcome where
  | response (body : JBody)
  | typeError (message : String)

/-- Whether an outcome is an HTTP response at all. -/
def isResponse : HandlerOutcome → Bool
  | HandlerOutcome.response _ => true
  | HandlerOutcome.typeError _ => false

/-- The session portion of the /api/next-captcha handler, after the
rate-limit and credential phases: session upsert and blocked check, then the
attempt-increment call. The blocked check (lines 339-350) runs first and
returns the blocked body for a blocked session. Every request that passes it
reaches line 465, which calls increment_checkbox_attempts with the keyword
argument is_low_score; the function's parameter is named is_bot_suspected
(src/infrastructure/redis_client.py line 157), so the call raises TypeError
before entering the function, outside any try block, and the request fails
with HTTP 500. The tier-selection and payload code below the call (lines
481-542, with the score-band table commented out) is unreachable, and the
session is not modified beyond the earlier upsert. The ML confidence score,
the minted token string and the mobile flag are inputs of the handler kept
in the interface; the crash leaves them unused. -/
def next_captcha_core (store : KV CheckboxSession) (sid : String)
    (_is_mobile : Bool) (_score : Int) (_captcha_token : String)
    (_ml_used : Bool) (_is_bot : Bool) : HandlerOutcome × KV CheckboxSession :=
  let store1 :=
    if (get_checkbox_session store sid).isNone then create_checkbox_session store sid
    else store
  if is_checkbox_session_blocked store1 sid then
    (HandlerOutcome.response (blockedSessionBody sid), store1)
  else
    (HandlerOutcome.typeError
      "increment_checkbox_attempts() got an unexpected keyword argument is_low_score",
     store1)

/-! ## IP rate limiter (src/utils/ip_rate_limiter.py, check_ip_rate_limit)

The rate-counter keyspace is embedded as a function from key strings to
counts (a missing key reads as 0, as in the source). The suspicious-IP
registry written on a violation lives in a disjoint keyspace and is not
modelled; the claims below are about the counters and the HTTP outcome. -/

/-- The minute-window counter key for an IP (window id = now / 60). -/
def ipMinuteKey (ip : String) (window : Nat) : String :=
  rkey ["ip_rate_limit", "minute", ip, Nat.repr window]

/-- The hour-window counter key for an IP (window id = now / 3600). -/
def ipHourKey (ip : String) (window : Nat) : String :=
  rkey ["ip_rate_limit", "hour", ip, Nat.repr window]

/-- The day-window counter key for an IP (window id = now / 86400). -/
def ipDayKey (ip : String) (window : Nat) : String :=
  rkey ["ip_rate_limit", "day", ip, Nat.repr window]

/-- Redis INCR on a counter key. -/
def bumpCounter (c : String → Nat) (k : String) : String → Nat :=
  fun k2 => if k2 = k then c k + 1 else c k2

/-- The outcome of check_ip_rate_limit: either the request is allowed and the
remaining budgets are reported, or an HTTPException with a status code and
retry_after_seconds plus the current usage is raised. -/
inductive RateLimitResult where
  | allowed (minute_remaining hour_remaining day_remaining : Nat)
  | limited (status_code : Nat) (retry_after_seconds : Nat)
      (minute_count hour_count day_count : Nat)

/-- check_ip_rate_limit: read the three clock-aligned window counters; if any
already meets its limit, reject with 429 and retry_after equal to the minimum
remaining window reset without touching the counters; otherwise increment all
three counters by one. -/
def check_ip_rate_limit (c : String → Nat) (ip : String)
    (rate_limit_per_minute rate_limit_per_hour rate_limit_per_day : Nat)
    (now : Nat) : RateLimitResult × (String → Nat) :=
  let minute_key := ipMinuteKey ip (now / 60)
  let hour_key := ipHourKey ip (now / 3600)
  let day_key := ipDayKey ip (now / 86400)
  let minute_count := c minute_key
  let hour_count := c hour_key
  let day_count := c day_key
  if rate_limit_per_minute ≤ minute_count ∨ rate_limit_per_hour ≤ hour_count ∨
      rate_limit_per_day ≤ day_count then
    (RateLimitResult.limited 429
      (min (60 - now % 60) (min (3600 - now % 3600) (86400 - now % 86400)))
      minute_count hour_count day_count, c)
  else
    let c1 := bumpCounter c minute_key
    let c2 := bumpCounter c1 hour_key
    let c3 := bumpCounter c2 day_key
    (RateLimitResult.allowed (rate_limit_per_minute - minute_count - 1)
      (rate_limit_per_hour - hour_count - 1) (rate_limit_per_day - day_count - 1), c3)

/-- A sequence of requests from one IP: fold check_ip_rate_limit over the
request times, collecting the outcomes. -/
def runIpRequests (c : String → Nat) (ip : String) (lm lh ld : Nat) :
    List Nat → List RateLimitResult × (String → Nat)
  | [] => ([], c)
  | t :: ts =>
    let step := check_ip_rate_limit c ip lm lh ld t
    let rest := runIpRequests step.2 ip lm lh ld ts
    (step.1 :: rest.1, rest.2)

/-! ## HMAC-SHA256 image-token signing (src/utils/signing.py)

hashlib.sha256 and hmac (FIPS 180-4 / RFC 2104) are embedded executably over
byte lists, with 32-bit words as Nat reduced mod 2^32. -/

/-- Reduce to a 32-bit word. -/
def w32 (x : Nat) : Nat := x % 4294967296

/-- Right-rotation of a 32-bit word. -/
def rotr32 (n x : Nat) : Nat := w32 ((x >>> n) ||| (x <<< (32 - n)))

/-- SHA-256 Ch function. -/
def shaCh (x y z : Nat) : Nat := (x &&& y) ^^^ ((x ^^^ 4294967295) &&& z)

/-- SHA-256 Maj function. -/
def shaMaj (x y z : Nat) : Nat := (x &&& y) ^^^ (x &&& z) ^^^ (y &&& z)

/-- SHA-256 big sigma 0. -/
def shaS0 (x : Nat) : Nat := rotr32 2 x ^^^ rotr32 13 x ^^^ rotr32 22 x

/-- SHA-256 big sigma 1. -/
def shaS1 (x : Nat) : Nat := rotr32 6 x ^^^ rotr32 11 x ^^^ rotr32 25 x

/-- SHA-256 small sigma 0. -/
def shaG0 (x : Nat) : Nat := rotr32 7 x ^^^ rotr32 18 x ^^^ (x >>> 3)

/-- SHA-256 small sigma 1. -/
def shaG1 (x : Nat) : Nat := rotr32 17 x ^^^ rotr32 19 x ^^^ (x >>> 10)

/-- The SHA-256 round constants (FIPS 180-4, written in decimal). -/
def shaK : List Nat :=
  [1116352408, 1899447441, 3049323471, 3921009573, 961987163, 1508970993,
   2453635748, 2870763221, 3624381080, 310598401, 607225278, 1426881987,
   1925078388, 2162078206, 2614888103, 3248222580, 3835390401, 4022224774,
   264347078, 604807628, 770255983, 1249150122, 1555081692, 1996064986,
   2554220882, 2821834349, 2952996808, 3210313671, 3336571891, 3584528711,
   113926993, 338241895, 666307205, 773529912, 1294757372, 1396182291,
   1695183700, 1986661051, 2177026350, 2456956037, 2730485921, 2820302411,
   3259730800, 3345764771, 3516065817, 3600352804, 4094571909, 275423344,
   430227734, 506948616, 659060556, 883997877, 958139571, 1322822218,
   1537002063, 1747873779, 1955562222, 2024104815, 2227730452, 2361852424,
   2428436474, 2756734187, 3204031479, 3329325298]

/-- The SHA-256 working state. -/
structure ShaState where
  a : Nat
  b : Nat
  c : Nat
  d : Nat
  e : Nat
  f : Nat
  g : Nat
  h : Nat

/-- The SHA-256 initial hash value (FIPS 180-4, written in decimal). -/
def shaInit : ShaState :=
  ⟨1779033703, 3144134277, 1013904242, 2773480762,
   1359893119, 2600822924, 528734635, 1541459225⟩

/-- One SHA-256 round; kw is the sum of the round constant and the scheduled
message word. -/
def shaStep (st : ShaState) (kw : Nat) : ShaState :=
  let t1 := w32 (st.h + shaS1 st.e + shaCh st.e st.f st.g + kw)
  let t2 := w32 (shaS0 st.a + shaMaj st.a st.b st.c)
  ⟨w32 (t1 + t2), st.a, st.b, st.c, w32 (st.d + t1), st.e, st.f, st.g⟩

/-- Extend the 16-word block by the given number of scheduled words. -/
def shaExtendAux (w : Array Nat) : Nat → Array Nat
  | 0 => w
  | n + 1 =>
    let s := w.size
    let x := w32 (shaG1 (w.getD (s - 2) 0) + w.getD (s - 7) 0 +
      shaG0 (w.getD (s - 15) 0) + w.getD (s - 16) 0)
    shaExtendAux (w.push x) n

/-- The 64-entry message schedule of a 16-word block. -/
def shaSchedule (block : List Nat) : List Nat :=
  (shaExtendAux block.toArray 48).toList

/-- Compress one 16-word block into the state. -/
def shaCompress (st : ShaState) (block : List Nat) : ShaState :=
  let rounds := (shaK.zip (shaSchedule block)).foldl
    (fun s kw => shaStep s (kw.1 + kw.2)) st
  ⟨w32 (st.a + rounds.a), w32 (st.b + rounds.b), w32 (st.c + rounds.c),
   w32 (st.d + rounds.d), w32 (st.e + rounds.e), w32 (st.f + rounds.f),
   w32 (st.g + rounds.g), w32 (st.h + rounds.h)⟩

/-- A 32-bit word as four big-endian bytes. -/
def be32 (x : Nat) : List Nat :=
  [(x >>> 24) % 256, (x >>> 16) % 256, (x >>> 8) % 256, x % 256]

/-- A 64-bit word as eight big-endian bytes. -/
def be64 (x : Nat) : List Nat :=
  [(x >>> 56) % 256, (x >>> 48) % 256, (x >>> 40) % 256, (x >>> 32) % 256,
   (x >>> 24) % 256, (x >>> 16) % 256, (x >>> 8) % 256, x % 256]

/-- SHA-256 padding: a 0x80 byte, zeros to 56 mod 64, and the bit length. -/
def shaPad (msg : List Nat) : List Nat :=
  let L := msg.length
  let z := (120 - (L + 1) % 64) % 64
  msg ++ [0x80] ++ List.replicate z 0 ++ be64 (8 * L)

/-- Split a byte list into 64-byte blocks (the fuel starts at the list
length, which always suffices). -/
def toBlocksFuel : Nat → List Nat → List (List Nat)
  | 0, _ => []
  | _, [] => []
  | fuel + 1, l => l.take 64 :: toBlocksFuel fuel (l.drop 64)

/-- Split a byte list into 64-byte blocks. -/
def toBlocks (l : List Nat) : List (List Nat) := toBlocksFuel l.length l

/-- Group bytes into big-endian 32-bit words. -/
def toWords : List Nat → List Nat
  | b0 :: b1 :: b2 :: b3 :: rest => (((b0 * 256 + b1) * 256 + b2) * 256 + b3) :: toWords rest
  | _ => []

/-- SHA-256 of a byte list, as the 32 digest bytes. -/
def sha256 (msg : List Nat) : List Nat :=
  let blocks := (toBlocks (shaPad msg)).map toWords
  let st := blocks.foldl shaCompress shaInit
  be32 st.a ++ be32 st.b ++ be32 st.c ++ be32 st.d ++
  be32 st.e ++ be32 st.f ++ be32 st.g ++ be32 st.h

/-- A lowercase hex digit. -/
def hexDigitChar (n : Nat) : Char :=
  "0123456789abcdef".toList.getD n '0'

/-- A byte as two lowercase hex characters. -/
def byteToHex (b : Nat) : List Char :=
  [hexDigitChar (b / 16), hexDigitChar (b % 16)]

/-- A byte list as a lowercase hex string (hexdigest). -/
def bytesToHex (bs : List Nat) : String :=
  String.mk (bs.map byteToHex).flatten

/-- UTF-8 encoding of one code point. -/
def utf8EncodeCharNat (c : Nat) : List Nat :=
  if c < 0x80 then [c]
  else if c < 0x800 then
    [0xc0 ||| (c >>> 6), 0x80 ||| (c &&& 0x3f)]
  else if c < 0x10000 then
    [0xe0 ||| (c >>> 12), 0x80 ||| ((c >>> 6) &&& 0x3f), 0x80 ||| (c &&& 0x3f)]
  else
    [0xf0 ||| (c >>> 18), 0x80 ||| ((c >>> 12) &&& 0x3f),
     0x80 ||| ((c >>> 6) &&& 0x3f), 0x80 ||| (c &&& 0x3f)]

/-- Python str.encode of a string, as UTF-8 bytes. -/
def strToBytes (s : String) : List Nat :=
  (s.toList.map (fun ch => utf8EncodeCharNat ch.toNat)).flatten

/-- HMAC-SHA256 (RFC 2104), block size 64 bytes. -/
def hmacSha256 (key msg : List Nat) : List Nat :=
  let k0 := if 64 < key.length then sha256 key else key
  let k := k0 ++ List.replicate (64 - k0.length) 0
  let ipadded := k.map (fun b => b ^^^ 0x36)
  let opadded := k.map (fun b => b ^^^ 0x5c)
  sha256 (opadded ++ sha256 (ipadded ++ msg))

/-- hmac.new(key, msg, hashlib.sha256).hexdigest(). -/
def hmacSha256Hex (key msg : List Nat) : String :=
  bytesToHex (hmacSha256 key msg)

/-- sign_image_token: the HMAC-SHA256 hex digest of challenge_id:index under
the server-side secret (ABSTRACT_HMAC_SECRET), both UTF-8 encoded. -/
def sign_image_token (secret : String) (challenge_id : String) (image_index : Int) : String :=
  hmacSha256Hex (strToBytes secret) (strToBytes (challenge_id ++ ":" ++ toString image_index))

/-- hmac.compare_digest on two ASCII strings: functionally, string equality
(the constant-time execution profile is outside the functional embedding). -/
def hmacCompareDigest (a b : String) : Bool := a == b

/-- verify_image_token: recompute the expected signature and compare. -/
def verify_image_token (secret : String) (challenge_id : String) (image_index : Int)
    (signature : String) : Bool :=
  hmacCompareDigest (sign_image_token secret challenge_id image_index) signature

/-! ## Theorems -/

set_option maxRecDepth 4000

/-- SHA-256 of the FIPS 180-4 test message abc, sanity-checking the embedded
compression function. -/
theorem sha256_fips_vector :
    bytesToHex (sha256 (strToBytes "abc"))
      = "ba7816bf8f01cfea414140de5dae2223b00361a396177a9cb410ff61f20015ad" := by decide

/-- HMAC-SHA256 of RFC 4231 test case 2, sanity-checking the embedded
keyed-hash construction. -/
theorem hmac_rfc4231_vector :
    hmacSha256Hex (strToBytes "Jefe") (strToBytes "what do ya want for nothing?")
      = "5bdcc146bf60754e6a042426089575c75a003f089d2739839dec58b964ec3843" := by decide

/-- C9: for every challenge_id and image index, verify_image_token accepts the
signature minted by sign_image_token, and it accepts a supplied signature
exactly when that signature equals the HMAC-SHA256 hex digest of
challenge_id:index under the server-side secret (hmac.compare_digest being
functionally string equality). -/
theorem c9_image_token_signing (secret challenge_id : String) (image_index : Int)
    (signature : String) :
    verify_image_token secret challenge_id image_index
      (sign_image_token secret challenge_id image_index) = true
    ∧ (verify_image_token secret challenge_id image_index signature = true ↔
        signature = hmacSha256Hex (strToBytes secret)
          (strToBytes (challenge_id ++ ":" ++ toString image_index))) := by
  refine ⟨by simp [verify_image_token, hmacCompareDigest], ?_⟩
  simp only [verify_image_token, hmacCompareDigest, sign_image_token, beq_iff_eq]
  exact eq_comm

/-- C3: an image-grid verification succeeds exactly when the sorted
deduplicated selections equal the sorted deduplicated stored correct cells. -/
theorem c3_imagegrid_set_equality (store : KV ImageGridDoc) (cid : String)
    (selections : List Int) (doc : ImageGridDoc)
    (hdoc : store (rkey ["imagegrid", cid]) = some doc) :
    (jlookup (verify_imagegrid store cid selections).1 "success" = some (JVal.jbool true)
      ↔ sortedDedupInt selections = sortedDedupInt doc.correct_cells) := by
  simp only [verify_imagegrid, hdoc]
  split
  · simp [jlookup, List.lookup]
  · simp [jlookup, List.lookup]

/-- C3 witness: a stored challenge with correct cells 5,2 accepts the
selection list 2,5,5 and rejects 1. -/
theorem c3_imagegrid_set_equality_witness :
    (KV.set (KV.empty : KV ImageGridDoc) (rkey ["imagegrid", "c1"])
        ⟨"c1", "u", 0, "car", [5, 2]⟩) (rkey ["imagegrid", "c1"])
      = some ⟨"c1", "u", 0, "car", [5, 2]⟩
    ∧ (jlookup (verify_imagegrid
        (KV.set (KV.empty : KV ImageGridDoc) (rkey ["imagegrid", "c1"])
          ⟨"c1", "u", 0, "car", [5, 2]⟩) "c1" [2, 5, 5]).1 "success"
        = some (JVal.jbool true)
      ↔ sortedDedupInt [2, 5, 5] = sortedDedupInt (⟨"c1", "u", 0, "car", [5, 2]⟩ : ImageGridDoc).correct_cells) := by
  refine ⟨by rfl, ?_⟩
  exact c3_imagegrid_set_equality _ "c1" [2, 5, 5] _ (by rfl)

/-- C2 counterexample: with the stored correct cells 2,5 and the wrong
selection 1, the very first (failed) verification attempt already deletes the
challenge, so no second attempt is possible. -/
theorem c2_counterexample :
    jlookup (verify_imagegrid
        (KV.set (KV.empty : KV ImageGridDoc) (rkey ["imagegrid", "c1"])
          ⟨"c1", "u", 0, "car", [2, 5]⟩) "c1" [1]).1 "success" = some (JVal.jbool false)
    ∧ (verify_imagegrid
        (KV.set (KV.empty : KV ImageGridDoc) (rkey ["imagegrid", "c1"])
          ⟨"c1", "u", 0, "car", [2, 5]⟩) "c1" [1]).2 (rkey ["imagegrid", "c1"]) = none
    ∧ jlookup (verify_imagegrid
        (KV.set (KV.empty : KV ImageGridDoc) (rkey ["imagegrid", "c1"])
          ⟨"c1", "u", 0, "car", [2, 5]⟩) "c1" [1]).1 "attempts" = some (JVal.jint 1) := by
  exact ⟨rfl, rfl, rfl⟩

/-- C2 amended: for image-grid and abstract challenges alike, a verification
attempt increments the attempt counter and always deletes the challenge,
pass or fail (the deletion condition attempts at least 1 holds after every
increment, so the effective attempt ceiling is 1, not 2). -/
theorem c2_challenge_deleted_every_attempt
    (gs : KV ImageGridDoc) (as2 : KV AbstractDoc) (cid acid : String)
    (sel asel : List Int) (doc : ImageGridDoc) (adoc : AbstractDoc)
    (hg : gs (rkey ["imagegrid", cid]) = some doc)
    (ha : as2 (rkey ["abstract", acid]) = some adoc) :
    (jlookup (verify_imagegrid gs cid sel).1 "attempts" = some (JVal.jint (doc.attempts + 1))
      ∧ (verify_imagegrid gs cid sel).2 (rkey ["imagegrid", cid]) = none)
    ∧ (jlookup (verify_abstract as2 acid asel).1 "attempts" = some (JVal.jint (adoc.attempts + 1))
      ∧ (verify_abstract as2 acid asel).2 (rkey ["abstract", acid]) = none) := by
  refine ⟨⟨?_, ?_⟩, ?_, ?_⟩
  · simp only [verify_imagegrid, hg]
    split
    · simp [jlookup, List.lookup]
    · simp [jlookup, List.lookup]
  · simp only [verify_imagegrid, hg]
    have : (decide (sortedDedupInt sel = sortedDedupInt doc.correct_cells) = true
        ∨ doc.attempts + 1 ≥ 1) := Or.inr (Nat.le_add_left 1 doc.attempts)
    simp [this, KV.del]
  · simp [verify_abstract, ha, jlookup, List.lookup]
  · simp only [verify_abstract, ha]
    have : (listSetEq (positiveIndices adoc.is_positive) asel = true
        ∨ adoc.attempts + 1 ≥ 1) := Or.inr (Nat.le_add_left 1 adoc.attempts)
    simp [this, KV.del]

/-- C2 witness: a stored image-grid challenge with zero prior attempts plus a
stored abstract challenge, both verified once (unsuccessfully), report one
attempt and are gone afterwards. -/
theorem c2_challenge_deleted_every_attempt_witness :
    (KV.set (KV.empty : KV ImageGridDoc) (rkey ["imagegrid", "g"])
        ⟨"g", "u", 0, "car", [2, 5]⟩) (rkey ["imagegrid", "g"]) = some ⟨"g", "u", 0, "car", [2, 5]⟩
    ∧ (KV.set (KV.empty : KV AbstractDoc) (rkey ["abstract", "a"])
        ⟨"a", "tc", ["kw"], ["u1"], [true], 0⟩) (rkey ["abstract", "a"]) = some ⟨"a", "tc", ["kw"], ["u1"], [true], 0⟩
    ∧ (verify_imagegrid (KV.set (KV.empty : KV ImageGridDoc) (rkey ["imagegrid", "g"])
        ⟨"g", "u", 0, "car", [2, 5]⟩) "g" [1]).2 (rkey ["imagegrid", "g"]) = none
    ∧ (verify_abstract (KV.set (KV.empty : KV AbstractDoc) (rkey ["abstract", "a"])
        ⟨"a", "tc", ["kw"], ["u1"], [true], 0⟩) "a" []).2 (rkey ["abstract", "a"]) = none := by
  refine ⟨rfl, rfl, ?_, ?_⟩
  · exact (c2_challenge_deleted_every_attempt
      (KV.set (KV.empty : KV ImageGridDoc) (rkey ["imagegrid", "g"]) ⟨"g", "u", 0, "car", [2, 5]⟩)
      (KV.set (KV.empty : KV AbstractDoc) (rkey ["abstract", "a"]) ⟨"a", "tc", ["kw"], ["u1"], [true], 0⟩)
      "g" "a" [1] [] _ _ rfl rfl).1.2
  · exact (c2_challenge_deleted_every_attempt
      (KV.set (KV.empty : KV ImageGridDoc) (rkey ["imagegrid", "g"]) ⟨"g", "u", 0, "car", [2, 5]⟩)
      (KV.set (KV.empty : KV AbstractDoc) (rkey ["abstract", "a"]) ⟨"a", "tc", ["kw"], ["u1"], [true], 0⟩)
      "g" "a" [1] [] _ _ rfl rfl).2.2

/-- C4 counterexample: a failed image-grid verification response contains the
stored correct_cells (and an abstract verification response contains the
stored target_class), so verification responses do leak stored answer data. -/
theorem c4_counterexample :
    (jkeys (verify_imagegrid (KV.set (KV.empty : KV ImageGridDoc) (rkey ["imagegrid", "c1"])
        ⟨"c1", "u", 0, "car", [2, 5]⟩) "c1" [1]).1).contains "correct_cells" = true
    ∧ jlookup (verify_imagegrid (KV.set (KV.empty : KV ImageGridDoc) (rkey ["imagegrid", "c1"])
        ⟨"c1", "u", 0, "car", [2, 5]⟩) "c1" [1]).1 "correct_cells"
        = some (JVal.jarr [JVal.jint 2, JVal.jint 5])
    ∧ jlookup (verify_abstract (KV.set (KV.empty : KV AbstractDoc) (rkey ["abstract", "a1"])
        ⟨"a1", "금붕어", ["kw"], ["u1"], [true], 0⟩) "a1" []).1 "target_class"
        = some (JVal.jstr "금붕어") := by
  exact ⟨rfl, rfl, rfl⟩

/-- C4 amended: challenge-issuance bodies never carry is_positive,
target_class, correct_cells or answer_classes (grid issuance carries
target_label), and the handwriting verification body carries only success;
but the image-grid verification body always carries target_label and
correct_cells, and the abstract verification body always carries
target_class and keywords. -/
theorem c4_answer_field_exposure
    (gs : KV ImageGridDoc) (asb : KV AbstractDoc) (hws : KV HandwritingDoc)
    (cid url label tc tgt txt : String) (cells sel : List Int)
    (urls samples kws : List String) (pos : List Bool)
    (gdoc : ImageGridDoc) (adoc : AbstractDoc) (hdoc : HandwritingDoc)
    (hg : gs (rkey ["imagegrid", cid]) = some gdoc)
    (ha : asb (rkey ["abstract", cid]) = some adoc)
    (hh : hws (rkey ["handwriting", cid]) = some hdoc)
    (hcid : cid ≠ "") :
    ((jkeys (create_imagegrid_challenge gs cid url label cells).1).contains "correct_cells" = false
      ∧ (jkeys (create_imagegrid_challenge gs cid url label cells).1).contains "is_positive" = false
      ∧ (jkeys (create_abstract_captcha asb cid urls tc pos kws).1).contains "is_positive" = false
      ∧ (jkeys (create_abstract_captcha asb cid urls tc pos kws).1).contains "target_class" = false
      ∧ (jkeys (create_handwriting_challenge hws cid samples tgt).1).contains "target_class" = false
      ∧ (jkeys (create_handwriting_challenge hws cid samples tgt).1).contains "answer_classes" = false)
    ∧ ((jkeys (verify_imagegrid gs cid sel).1).contains "correct_cells" = true
      ∧ (jkeys (verify_imagegrid gs cid sel).1).contains "target_label" = true
      ∧ (jkeys (verify_abstract asb cid sel).1).contains "target_class" = true
      ∧ (jkeys (verify_abstract asb cid sel).1).contains "keywords" = true)
    ∧ jkeys (verify_handwriting hws cid txt).1 = ["success"] := by
  refine ⟨⟨rfl, rfl, rfl, rfl, rfl, rfl⟩, ⟨?_, ?_, ?_, ?_⟩, ?_⟩
  · simp only [verify_imagegrid, hg]
    split
    · rfl
    · rfl
  · simp only [verify_imagegrid, hg]
    split
    · rfl
    · rfl
  · simp only [verify_abstract, ha]
    rfl
  · simp only [verify_abstract, ha]
    rfl
  · simp only [verify_handwriting, if_neg hcid, hh]
    rfl

/-- C4 witness: one concrete store per challenge family, exercising the
amended exposure statement. -/
theorem c4_answer_field_exposure_witness :
    (KV.set (KV.empty : KV ImageGridDoc) (rkey ["imagegrid", "c"])
        ⟨"c", "u", 0, "car", [2]⟩) (rkey ["imagegrid", "c"]) = some ⟨"c", "u", 0, "car", [2]⟩
    ∧ (KV.set (KV.empty : KV AbstractDoc) (rkey ["abstract", "c"])
        ⟨"c", "tc", [], [], [], 0⟩) (rkey ["abstract", "c"]) = some ⟨"c", "tc", [], [], [], 0⟩
    ∧ (KV.set (KV.empty : KV HandwritingDoc) (rkey ["handwriting", "c"])
        ⟨"c", [], "개", ["개", "강아지"], 0⟩) (rkey ["handwriting", "c"]) = some ⟨"c", [], "개", ["개", "강아지"], 0⟩
    ∧ ("c" : String) ≠ ""
    ∧ jkeys (verify_handwriting (KV.set (KV.empty : KV HandwritingDoc) (rkey ["handwriting", "c"])
        ⟨"c", [], "개", ["개", "강아지"], 0⟩) "c" "개").1 = ["success"] := by
  refine ⟨rfl, rfl, rfl, by decide, ?_⟩
  exact (c4_answer_field_exposure
    (KV.set (KV.empty : KV ImageGridDoc) (rkey ["imagegrid", "c"]) ⟨"c", "u", 0, "car", [2]⟩)
    (KV.set (KV.empty : KV AbstractDoc) (rkey ["abstract", "c"]) ⟨"c", "tc", [], [], [], 0⟩)
    (KV.set (KV.empty : KV HandwritingDoc) (rkey ["handwriting", "c"]) ⟨"c", [], "개", ["개", "강아지"], 0⟩)
    "c" "u" "car" "tc" "개" "개" [2] [2] [] [] [] []
    _ _ _ rfl rfl rfl (by decide)).2.2

/-- C1: in the program as written, token validation never succeeds at all:
the DictCursor row defeats the positional reads inside the verify function's
try block, so every call returns (False, None) and leaves the table
unchanged; in particular a valid, unused, unexpired token fails too, and
is_used is never set to 1. The second conjunct evaluates the function at the
failing input (a fresh matching row). -/
theorem c1_token_validation_never_succeeds (db : List TokenRow) (t : String) (k : Int)
    (now : Int) :
    verify_captcha_token db t k now = ((false, none), db)
    ∧ verify_captcha_token [⟨1, "tok1", 7, 3, "handwriting", 1000, 0, none⟩] "tok1" 7 100
        = ((false, none), [⟨1, "tok1", 7, 3, "handwriting", 1000, 0, none⟩])
    ∧ tokenMatches "tok1" 7 100 ⟨1, "tok1", 7, 3, "handwriting", 1000, 0, none⟩ = true := by
  refine ⟨?_, rfl, rfl⟩
  cases h : db.find? (tokenMatches t k now) <;> simp [verify_captcha_token, h]

/-- Every request that passes the blocked-session check ends in the
TypeError from the attempt-increment call: no tier selection, no success
payload, and the session (beyond the initial upsert) untouched. -/
theorem next_captcha_core_not_blocked_crashes (store : KV CheckboxSession) (sid : String)
    (mobile : Bool) (score : Int) (tok : String) (ml bot : Bool)
    (hnb : ∀ s2, store (rkey ["checkbox_session", sid]) = some s2 → s2.is_blocked = false) :
    (next_captcha_core store sid mobile score tok ml bot).1
      = HandlerOutcome.typeError
          "increment_checkbox_attempts() got an unexpected keyword argument is_low_score" := by
  have hblk : is_checkbox_session_blocked
      (if (get_checkbox_session store sid).isNone then create_checkbox_session store sid
       else store) sid = false := by
    by_cases hsid : sid = ""
    · subst hsid
      simp [is_checkbox_session_blocked, get_checkbox_session]
    · cases hg : store (rkey ["checkbox_session", sid]) with
      | none =>
        simp [is_checkbox_session_blocked, get_checkbox_session, create_checkbox_session,
          KV.set, emptyCheckboxSession, hsid, hg]
      | some s2 =>
        simp [is_checkbox_session_blocked, get_checkbox_session, hsid, hg, hnb s2 hg]
  simp [next_captcha_core, hblk]

/-- C5 counterexample: a non-mobile request with confidence score 70 (inside
the claimed 60 to 90 band) and a fresh session never receives a response at
all, let alone one carrying imagecaptcha/image: the handler raises TypeError
at the attempt-increment call and the request fails with HTTP 500. -/
theorem c5_counterexample :
    (next_captcha_core KV.empty "s1" false 70 "tok" true false).1
      = HandlerOutcome.typeError
          "increment_checkbox_attempts() got an unexpected keyword argument is_low_score"
    ∧ isResponse (next_captcha_core KV.empty "s1" false 70 "tok" true false).1 = false := by
  exact ⟨rfl, rfl⟩

/-- C5 amended: a non-mobile /api/next-captcha request whose session is not
blocked never reaches tier selection for any confidence score: the call at
line 465 passes the keyword is_low_score to a parameter named
is_bot_suspected and raises an uncaught TypeError (HTTP 500), and the
score-band table below it is commented out, so no response with
next_captcha = imagecaptcha and captcha_type = image is ever produced. -/
theorem c5_no_tier_response (store : KV CheckboxSession) (sid : String)
    (score : Int) (tok : String) (ml bot : Bool)
    (hnb : ∀ s2, store (rkey ["checkbox_session", sid]) = some s2 → s2.is_blocked = false) :
    (next_captcha_core store sid false score tok ml bot).1
      = HandlerOutcome.typeError
          "increment_checkbox_attempts() got an unexpected keyword argument is_low_score"
    ∧ isResponse (next_captcha_core store sid false score tok ml bot).1 = false := by
  have h := next_captcha_core_not_blocked_crashes store sid false score tok ml bot hnb
  rw [h]
  exact ⟨rfl, rfl⟩

/-- C5 witness: the fresh-session, score-70 instance of the amended claim. -/
theorem c5_no_tier_response_witness :
    (KV.empty : KV CheckboxSession) (rkey ["checkbox_session", "s1"]) = none
    ∧ (next_captcha_core KV.empty "s1" false 70 "tok" true false).1
        = HandlerOutcome.typeError
            "increment_checkbox_attempts() got an unexpected keyword argument is_low_score" := by
  refine ⟨rfl, ?_⟩
  exact (c5_no_tier_response KV.empty "s1" 70 "tok" true false
    (by intro s2 h; simp [KV.empty] at h)).1

/-- C10: increment_checkbox_attempts does return a dict with exactly the keys
status, is_disabled and is_blocked, but its only call site passes the keyword
is_low_score to the parameter named is_bot_suspected, so the call raises
TypeError: every request past the blocked-session check fails with HTTP 500,
no successful non-blocked response exists, and the handler never reads
attempts or low_score_attempts from the increment result. The last conjuncts
evaluate the handler at the failing input (fresh session, score 75). -/
theorem c10_increment_result_never_consumed (store : KV CheckboxSession) (sid : String)
    (susp : Bool) :
    jkeys (increment_checkbox_attempts store sid susp).1
      = ["status", "is_disabled", "is_blocked"]
    ∧ (next_captcha_core KV.empty "s9" false 75 "tok" true false).1
        = HandlerOutcome.typeError
            "increment_checkbox_attempts() got an unexpected keyword argument is_low_score"
    ∧ isResponse (next_captcha_core KV.empty "s9" false 75 "tok" true false).1 = false := by
  exact ⟨rfl, rfl, rfl⟩

/-- C6 counterexample: the blocked response carries next_captcha as the empty
string, not null. -/
theorem c6_counterexample :
    (next_captcha_core
        (KV.set (KV.empty : KV CheckboxSession) (rkey ["checkbox_session", "s1"])
          ⟨"s1", 3, 0, 3, true, "blocked"⟩) "s1" false 75 "tok" true false).1
      = HandlerOutcome.response (blockedSessionBody "s1")
    ∧ jlookup (blockedSessionBody "s1") "next_captcha" = some (JVal.jstr "")
    ∧ (some (JVal.jstr "") ≠ some JVal.jnull) := by
  refine ⟨rfl, rfl, ?_⟩
  intro h
  exact JVal.noConfusion (Option.some.inj h)

/-- C6 amended: a bot-suspected attempt that brings bot_attempts to 3 blocks
the session; a blocked session is never unblocked by a later attempt; and
every later /api/next-captcha call with that session id returns the blocked
body, whose next_captcha is the empty string (not null), leaving the stored
session untouched. -/
theorem c6_session_block_is_permanent (store : KV CheckboxSession) (sid : String)
    (s : CheckboxSession)
    (hsid : sid ≠ "")
    (hs : store (rkey ["checkbox_session", sid]) = some s) :
    (2 ≤ s.bot_attempts →
      ∃ s2, (increment_checkbox_attempts store sid true).2 (rkey ["checkbox_session", sid]) = some s2
        ∧ s2.is_blocked = true)
    ∧ (∀ susp : Bool, s.is_blocked = true →
      ∃ s2, (increment_checkbox_attempts store sid susp).2 (rkey ["checkbox_session", sid]) = some s2
        ∧ s2.is_blocked = true)
    ∧ (∀ (mobile : Bool) (score : Int) (tok : String) (ml bot : Bool), s.is_blocked = true →
      (next_captcha_core store sid mobile score tok ml bot).1
          = HandlerOutcome.response (blockedSessionBody sid)
      ∧ jlookup (blockedSessionBody sid) "next_captcha" = some (JVal.jstr "")
      ∧ (next_captcha_core store sid mobile score tok ml bot).2 (rkey ["checkbox_session", sid])
          = some s) := by
  refine ⟨?_, ?_, ?_⟩
  · intro h3
    have hge : 3 ≤ s.bot_attempts + 1 := by omega
    simp [increment_checkbox_attempts, hs, KV.set, hge]
  · intro susp hbl
    cases susp
    · simp [increment_checkbox_attempts, hs, KV.set]
      exact hbl
    · by_cases hge : 3 ≤ s.bot_attempts + 1
      · simp [increment_checkbox_attempts, hs, KV.set, hge]
      · simp [increment_checkbox_attempts, hs, KV.set, hge]
        exact hbl
  · intro mobile score tok ml bot hbl
    have hget : get_checkbox_session store sid = some s := by
      unfold get_checkbox_session
      rw [if_neg hsid, hs]
    have hblk : is_checkbox_session_blocked store sid = true := by
      unfold is_checkbox_session_blocked
      rw [hget]
      simpa using hbl
    unfold next_captcha_core
    rw [hget]
    simp only [Option.isNone_some, Bool.false_eq_true, if_false]
    rw [if_pos hblk]
    exact ⟨rfl, rfl, hs⟩

/-- C6 witness: a session with two prior bot-suspected attempts is blocked by
the third, and a blocked session keeps returning the blocked body. -/
theorem c6_session_block_is_permanent_witness :
    ("s1" : String) ≠ ""
    ∧ (KV.set (KV.empty : KV CheckboxSession) (rkey ["checkbox_session", "s1"])
        ⟨"s1", 2, 0, 2, false, "bot_suspected"⟩) (rkey ["checkbox_session", "s1"])
        = some ⟨"s1", 2, 0, 2, false, "bot_suspected"⟩
    ∧ (∃ s2, (increment_checkbox_attempts
        (KV.set (KV.empty : KV CheckboxSession) (rkey ["checkbox_session", "s1"])
          ⟨"s1", 2, 0, 2, false, "bot_suspected"⟩) "s1" true).2 (rkey ["checkbox_session", "s1"])
        = some s2 ∧ s2.is_blocked = true) := by
  refine ⟨by decide, rfl, ?_⟩
  exact (c6_session_block_is_permanent
    (KV.set (KV.empty : KV CheckboxSession) (rkey ["checkbox_session", "s1"])
      ⟨"s1", 2, 0, 2, false, "bot_suspected"⟩) "s1"
    ⟨"s1", 2, 0, 2, false, "bot_suspected"⟩ (by decide) rfl).1 (by decide)

/-- C8: a handwriting challenge created for a target class is solved exactly
by a normalized text that lies in get_answer_classes of that class; the
mapping sends 금붕어 to 금붕어 and 물고기, and a class without a mapping entry
accepts exactly itself. -/
theorem c8_handwriting_answer_classes (store : KV HandwritingDoc) (cid : String)
    (samples : List String) (target text_norm : String)
    (hcid : cid ≠ "") :
    (jlookup (verify_handwriting (create_handwriting_challenge store cid samples target).2
        cid text_norm).1 "success" = some (JVal.jbool true)
      ↔ text_norm ∈ get_answer_classes target)
    ∧ get_answer_classes "금붕어" = ["금붕어", "물고기"]
    ∧ (∀ t : String, pyStrip t = t → t ≠ "" → TARGET_TO_ANSWER_MAPPING.lookup t = none →
        get_answer_classes t = [t]) := by
  refine ⟨?_, rfl, ?_⟩
  · have hstored : (create_handwriting_challenge store cid samples target).2
        (rkey ["handwriting", cid])
        = some ⟨cid, samples, target, get_answer_classes target, 0⟩ := by
      simp [create_handwriting_challenge, KV.set]
    simp only [verify_handwriting, if_neg hcid, hstored]
    by_cases hemp : get_answer_classes target = []
    · simp [hemp, jlookup, List.lookup]
    · simp [hemp, jlookup, List.lookup]
  · intro t h1 h2 h3
    unfold get_answer_classes
    rw [h1, if_neg h2, h3]
    rfl

/-- C8 witness: the 금붕어 challenge accepts the OCR text 물고기. -/
theorem c8_handwriting_answer_classes_witness :
    ("h1" : String) ≠ ""
    ∧ (jlookup (verify_handwriting
        (create_handwriting_challenge (KV.empty : KV HandwritingDoc) "h1" ["u1"] "금붕어").2
        "h1" "물고기").1 "success" = some (JVal.jbool true)
      ↔ ("물고기" : String) ∈ get_answer_classes "금붕어") := by
  refine ⟨by decide, ?_⟩
  exact (c8_handwriting_answer_classes (KV.empty : KV HandwritingDoc) "h1" ["u1"]
    "금붕어" "물고기" (by decide)).1

/-- A rejected request leaves every counter untouched and reports 429 with
the minimum remaining window reset. -/
theorem check_ip_rate_limit_limited (c : String → Nat) (ip : String) (lm lh ld now : Nat)
    (hex : lm ≤ c (ipMinuteKey ip (now / 60)) ∨ lh ≤ c (ipHourKey ip (now / 3600))
      ∨ ld ≤ c (ipDayKey ip (now / 86400))) :
    check_ip_rate_limit c ip lm lh ld now =
      (RateLimitResult.limited 429
        (min (60 - now % 60) (min (3600 - now % 3600) (86400 - now % 86400)))
        (c (ipMinuteKey ip (now / 60))) (c (ipHourKey ip (now / 3600)))
        (c (ipDayKey ip (now / 86400))), c) := by
  simp only [check_ip_rate_limit]
  rw [if_pos hex]

/-- An allowed request increments exactly the three window counters. -/
theorem check_ip_rate_limit_allowed (c : String → Nat) (ip : String) (lm lh ld now : Nat)
    (hm : c (ipMinuteKey ip (now / 60)) < lm) (hh : c (ipHourKey ip (now / 3600)) < lh)
    (hd : c (ipDayKey ip (now / 86400)) < ld) :
    check_ip_rate_limit c ip lm lh ld now =
      (RateLimitResult.allowed (lm - c (ipMinuteKey ip (now / 60)) - 1)
        (lh - c (ipHourKey ip (now / 3600)) - 1) (ld - c (ipDayKey ip (now / 86400)) - 1),
       bumpCounter (bumpCounter (bumpCounter c (ipMinuteKey ip (now / 60)))
         (ipHourKey ip (now / 3600))) (ipDayKey ip (now / 86400))) := by
  simp only [check_ip_rate_limit]
  rw [if_neg (by intro h; rcases h with h | h | h <;> omega)]

/-- Bumping a counter raises it by exactly 1 at its key. -/
theorem bumpCounter_same (c : String → Nat) (k : String) : bumpCounter c k k = c k + 1 := by
  simp [bumpCounter]

/-- Bumping a counter leaves every other key unchanged. -/
theorem bumpCounter_other (c : String → Nat) (k k2 : String) (h : k2 ≠ k) :
    bumpCounter c k k2 = c k2 := by
  simp [bumpCounter, h]

/-- Requests inside one clock-aligned window, starting with all three window
counters at n and room for the whole batch under every limit, are all
allowed; afterwards the three counters have each grown by the batch size and
every other key is untouched. -/
theorem runIpRequests_within_window (ip : String) (lm lh ld w hw dw : Nat)
    (hmh : ipMinuteKey ip w ≠ ipHourKey ip hw)
    (hmd : ipMinuteKey ip w ≠ ipDayKey ip dw)
    (hhd : ipHourKey ip hw ≠ ipDayKey ip dw)
    (hlh : lm ≤ lh) (hld : lm ≤ ld) :
    ∀ (ts : List Nat) (c : String → Nat) (n : Nat),
      (∀ t ∈ ts, t / 60 = w ∧ t / 3600 = hw ∧ t / 86400 = dw) →
      c (ipMinuteKey ip w) = n → c (ipHourKey ip hw) = n → c (ipDayKey ip dw) = n →
      n + ts.length ≤ lm →
      (∀ r ∈ (runIpRequests c ip lm lh ld ts).1, ∃ x y z, r = RateLimitResult.allowed x y z)
      ∧ (runIpRequests c ip lm lh ld ts).2 (ipMinuteKey ip w) = n + ts.length
      ∧ (runIpRequests c ip lm lh ld ts).2 (ipHourKey ip hw) = n + ts.length
      ∧ (runIpRequests c ip lm lh ld ts).2 (ipDayKey ip dw) = n + ts.length
      ∧ (∀ k2, k2 ≠ ipMinuteKey ip w → k2 ≠ ipHourKey ip hw → k2 ≠ ipDayKey ip dw →
          (runIpRequests c ip lm lh ld ts).2 k2 = c k2) := by
  intro ts
  induction ts with
  | nil =>
    intro c n hts hm hh hd hlen
    simp [runIpRequests, hm, hh, hd]
  | cons t ts ih =>
    intro c n hts hm hh hd hlen
    obtain ⟨h60, h3600, h86400⟩ := hts t (List.mem_cons_self t ts)
    have hlen2 : n + (ts.length + 1) ≤ lm := by simpa [List.length_cons] using hlen
    have hhm : ipHourKey ip hw ≠ ipMinuteKey ip w := Ne.symm hmh
    have hdm : ipDayKey ip dw ≠ ipMinuteKey ip w := Ne.symm hmd
    have hdh : ipDayKey ip dw ≠ ipHourKey ip hw := Ne.symm hhd
    have hcm : c (ipMinuteKey ip (t / 60)) < lm := by rw [h60, hm]; omega
    have hch : c (ipHourKey ip (t / 3600)) < lh := by rw [h3600, hh]; omega
    have hcd : c (ipDayKey ip (t / 86400)) < ld := by rw [h86400, hd]; omega
    clear hlen
    have hstep := check_ip_rate_limit_allowed c ip lm lh ld t hcm hch hcd
    rw [h60, h3600, h86400] at hstep
    have hm2 : (bumpCounter (bumpCounter (bumpCounter c (ipMinuteKey ip w))
        (ipHourKey ip hw)) (ipDayKey ip dw)) (ipMinuteKey ip w) = n + 1 := by
      rw [bumpCounter_other _ _ _ hmd, bumpCounter_other _ _ _ hmh, bumpCounter_same, hm]
    have hh2 : (bumpCounter (bumpCounter (bumpCounter c (ipMinuteKey ip w))
        (ipHourKey ip hw)) (ipDayKey ip dw)) (ipHourKey ip hw) = n + 1 := by
      rw [bumpCounter_other _ _ _ hhd, bumpCounter_same, bumpCounter_other _ _ _ hhm, hh]
    have hd2 : (bumpCounter (bumpCounter (bumpCounter c (ipMinuteKey ip w))
        (ipHourKey ip hw)) (ipDayKey ip dw)) (ipDayKey ip dw) = n + 1 := by
      rw [bumpCounter_same, bumpCounter_other _ _ _ hdh, bumpCounter_other _ _ _ hdm, hd]
    have hrest := ih (bumpCounter (bumpCounter (bumpCounter c (ipMinuteKey ip w))
        (ipHourKey ip hw)) (ipDayKey ip dw)) (n + 1)
      (fun t2 ht2 => hts t2 (List.mem_cons_of_mem t ht2)) hm2 hh2 hd2
      (by omega)
    simp only [runIpRequests, hstep, List.length_cons]
    refine ⟨?_, ?_, ?_, ?_, ?_⟩
    · intro r hr
      rcases List.mem_cons.mp hr with hr | hr
      · exact ⟨_, _, _, hr⟩
      · exact hrest.1 r hr
    · have h9 := hrest.2.1
      omega
    · have h9 := hrest.2.2.1
      omega
    · have h9 := hrest.2.2.2.1
      omega
    · intro k2 h1 h2 h3
      rw [hrest.2.2.2.2 k2 h1 h2 h3,
        bumpCounter_other _ _ _ h3, bumpCounter_other _ _ _ h2, bumpCounter_other _ _ _ h1]

/-- C7: counters are keyed by the clock-aligned window id floor(now/L); a
request is rejected (HTTP 429, retry_after the minimum remaining window
reset, counters untouched) exactly when some window counter already meets
its limit, and otherwise every window counter grows by exactly 1; so, from
fresh counters, a window with minute limit k admits k requests, rejects the
(k+1)-th for the rest of the window, and admits again in the next window.
The inequality hypotheses record that the three (and the successor-window)
counter keys are distinct strings, which holds for every rendered key. -/
theorem c7_windowed_ip_rate_limiting (c : String → Nat) (ip : String) (lm lh ld now : Nat)
    (hmh : ipMinuteKey ip (now / 60) ≠ ipHourKey ip (now / 3600))
    (hmd : ipMinuteKey ip (now / 60) ≠ ipDayKey ip (now / 86400))
    (hhd : ipHourKey ip (now / 3600) ≠ ipDayKey ip (now / 86400)) :
    ((lm ≤ c (ipMinuteKey ip (now / 60)) ∨ lh ≤ c (ipHourKey ip (now / 3600))
        ∨ ld ≤ c (ipDayKey ip (now / 86400))) →
      check_ip_rate_limit c ip lm lh ld now =
        (RateLimitResult.limited 429
          (min (60 - now % 60) (min (3600 - now % 3600) (86400 - now % 86400)))
          (c (ipMinuteKey ip (now / 60))) (c (ipHourKey ip (now / 3600)))
          (c (ipDayKey ip (now / 86400))), c))
    ∧ (c (ipMinuteKey ip (now / 60)) < lm → c (ipHourKey ip (now / 3600)) < lh →
        c (ipDayKey ip (now / 86400)) < ld →
      (∃ x y z, (check_ip_rate_limit c ip lm lh ld now).1 = RateLimitResult.allowed x y z)
      ∧ (check_ip_rate_limit c ip lm lh ld now).2 (ipMinuteKey ip (now / 60))
          = c (ipMinuteKey ip (now / 60)) + 1
      ∧ (check_ip_rate_limit c ip lm lh ld now).2 (ipHourKey ip (now / 3600))
          = c (ipHourKey ip (now / 3600)) + 1
      ∧ (check_ip_rate_limit c ip lm lh ld now).2 (ipDayKey ip (now / 86400))
          = c (ipDayKey ip (now / 86400)) + 1
      ∧ (∀ k2, k2 ≠ ipMinuteKey ip (now / 60) → k2 ≠ ipHourKey ip (now / 3600) →
          k2 ≠ ipDayKey ip (now / 86400) →
          (check_ip_rate_limit c ip lm lh ld now).2 k2 = c k2))
    ∧ (∀ (ts : List Nat) (tlast tnext : Nat),
      (∀ t ∈ ts, t / 60 = now / 60 ∧ t / 3600 = now / 3600 ∧ t / 86400 = now / 86400) →
      tlast / 60 = now / 60 → tlast / 3600 = now / 3600 → tlast / 86400 = now / 86400 →
      tnext / 60 = now / 60 + 1 → tnext / 3600 = now / 3600 → tnext / 86400 = now / 86400 →
      ts.length = lm → 0 < lm → lm < lh → lm < ld →
      ipMinuteKey ip (now / 60 + 1) ≠ ipMinuteKey ip (now / 60) →
      ipMinuteKey ip (now / 60 + 1) ≠ ipHourKey ip (now / 3600) →
      ipMinuteKey ip (now / 60 + 1) ≠ ipDayKey ip (now / 86400) →
      (∀ r ∈ (runIpRequests (fun _ => 0) ip lm lh ld ts).1,
        ∃ x y z, r = RateLimitResult.allowed x y z)
      ∧ (check_ip_rate_limit (runIpRequests (fun _ => 0) ip lm lh ld ts).2 ip lm lh ld tlast).1
          = RateLimitResult.limited 429
            (min (60 - tlast % 60) (min (3600 - tlast % 3600) (86400 - tlast % 86400))) lm lm lm
      ∧ (∃ x y z, (check_ip_rate_limit (runIpRequests (fun _ => 0) ip lm lh ld ts).2
          ip lm lh ld tnext).1 = RateLimitResult.allowed x y z)) := by
  refine ⟨?_, ?_, ?_⟩
  · intro hex
    exact check_ip_rate_limit_limited c ip lm lh ld now hex
  · intro hm hh hd
    have hstep := check_ip_rate_limit_allowed c ip lm lh ld now hm hh hd
    rw [hstep]
    dsimp only
    have hhm := Ne.symm hmh
    have hdm := Ne.symm hmd
    have hdh := Ne.symm hhd
    refine ⟨⟨_, _, _, rfl⟩, ?_, ?_, ?_, ?_⟩
    · rw [bumpCounter_other _ _ _ hmd, bumpCounter_other _ _ _ hmh, bumpCounter_same]
    · rw [bumpCounter_other _ _ _ hhd, bumpCounter_same, bumpCounter_other _ _ _ hhm]
    · rw [bumpCounter_same, bumpCounter_other _ _ _ hdh, bumpCounter_other _ _ _ hdm]
    · intro k2 h1 h2 h3
      rw [bumpCounter_other _ _ _ h3, bumpCounter_other _ _ _ h2, bumpCounter_other _ _ _ h1]
  · intro ts tlast tnext hts hl60 hl3600 hl86400 hn60 hn3600 hn86400 hlen hpos hlh hld
      hnm hnh hnd
    have hrun := runIpRequests_within_window ip lm lh ld (now / 60) (now / 3600) (now / 86400)
      hmh hmd hhd (by omega) (by omega) ts (fun _ => 0) 0 hts rfl rfl rfl (by omega)
    obtain ⟨hall, hm2, hh2, hd2, hother⟩ := hrun
    refine ⟨hall, ?_, ?_⟩
    · have hlim := check_ip_rate_limit_limited (runIpRequests (fun _ => 0) ip lm lh ld ts).2
        ip lm lh ld tlast (by rw [hl60, hm2]; omega)
      rw [hlim]
      dsimp only
      rw [hl60, hl3600, hl86400, hm2, hh2, hd2, hlen]
      simp
    · have hmnext : (runIpRequests (fun _ => 0) ip lm lh ld ts).2 (ipMinuteKey ip (tnext / 60)) < lm := by
        rw [hn60, hother _ hnm hnh hnd]
        simpa using hpos
      have hhnext : (runIpRequests (fun _ => 0) ip lm lh ld ts).2 (ipHourKey ip (tnext / 3600)) < lh := by
        rw [hn3600, hh2]
        omega
      have hdnext : (runIpRequests (fun _ => 0) ip lm lh ld ts).2 (ipDayKey ip (tnext / 86400)) < ld := by
        rw [hn86400, hd2]
        omega
      rw [check_ip_rate_limit_allowed _ ip lm lh ld tnext hmnext hhnext hdnext]
      exact ⟨_, _, _, rfl⟩

/-- C7 witness: with fresh counters, minute limit 2 and window-distinct keys,
one request raises the minute counter to 1; after two requests in the first
minute the third is rejected with 429 for the rest of the minute, and a
request in the next minute window is allowed again. -/
theorem c7_windowed_ip_rate_limiting_witness :
    ipMinuteKey "9.9.9.9" 0 ≠ ipHourKey "9.9.9.9" 0
    ∧ ipMinuteKey "9.9.9.9" 0 ≠ ipDayKey "9.9.9.9" 0
    ∧ ipHourKey "9.9.9.9" 0 ≠ ipDayKey "9.9.9.9" 0
    ∧ (check_ip_rate_limit (fun _ => 0) "9.9.9.9" 2 3 4 30).2 (ipMinuteKey "9.9.9.9" 0) = 1
    ∧ (check_ip_rate_limit (runIpRequests (fun _ => 0) "9.9.9.9" 2 3 4 [0, 1]).2
        "9.9.9.9" 2 3 4 30).1
      = RateLimitResult.limited 429
          (min (60 - 30 % 60) (min (3600 - 30 % 3600) (86400 - 30 % 86400))) 2 2 2
    ∧ (∃ x y z, (check_ip_rate_limit (runIpRequests (fun _ => 0) "9.9.9.9" 2 3 4 [0, 1]).2
        "9.9.9.9" 2 3 4 60).1 = RateLimitResult.allowed x y z) := by
  have h := c7_windowed_ip_rate_limiting (fun _ => 0) "9.9.9.9" 2 3 4 30
    (by decide) (by decide) (by decide)
  have h3 := h.2.2 [0, 1] 30 60 (by decide) (by decide) (by decide) (by decide)
    (by decide) (by decide) (by decide) (by decide) (by decide) (by decide) (by decide)
    (by decide) (by decide) (by decide)
  refine ⟨by decide, by decide, by decide, ?_, ?_, ?_⟩
  · have h2 := (h.2.1 (by decide) (by decide) (by decide)).2.1
    simpa using h2
  · simpa using h3.2.1
  · simpa using h3.2.2
